import Mathlib

/-!
Shallow embedding of hd-idle-for-windows (src/hd-idle.cpp).

The embedding follows the source:
* `IDLE_TIME` / `DISKSTATS` mirror the two C structs (the `next` pointers
  become Lean lists; `time_t` values become `Int`; the `unsigned int`
  counters become `Nat`; the 1-bit field `spun_down` becomes `Bool`).
* `build_it_root` mirrors how `main` builds the idle-time list from the
  command line: the default entry (`name == NULL`,
  `idle_time == DEFAULT_IDLE_TIME`) is created first, each `-a` prepends a
  fresh entry, and `-i` overwrites the idle time of the most recently
  created entry (the list head).
* `find_idle_time` mirrors the resolution loop at hd-idle.cpp:397-402.
* `diskstats_step` mirrors the counter-comparison branches of the main
  loop body (hd-idle.cpp:405-429) for a disk that already has a
  `DISKSTATS` record.  The `standby_ok` argument is the result of the
  external call `ata_set_standby_mode`; the source discards that result.
* `probe_disk` mirrors one iteration of the per-device loop body
  (hd-idle.cpp:280-429) after the device handle has been opened, with the
  results of the external Windows calls (`GetDevicePowerState`,
  `GetDriveTypeA`, `ata_check_power_mode`, the `IOCTL_DISK_PERFORMANCE`
  query, `ata_set_standby_mode`) supplied as inputs.
* `min_idle_time_of` / `sleep_time_of` mirror the sleep-time computation
  at hd-idle.cpp:261-271 (C integer division truncates toward zero, hence
  `Int.tdiv`).
-/

/-- hd-idle.cpp:149, `#define DEFAULT_IDLE_TIME 60`. -/
def DEFAULT_IDLE_TIME : Int := 60

/-- One entry of the idle-time parameter list (struct IDLE_TIME,
hd-idle.cpp:154-158).  `name = none` models `name == NULL`, the default
entry that matches every disk. -/
structure IDLE_TIME where
  name : Option String
  idle_time : Int
deriving DecidableEq, Repr

/-- Per-disk statistics record (struct DISKSTATS, hd-idle.cpp:160-170). -/
structure DISKSTATS where
  name : String
  idle_time : Int
  last_io : Int
  spindown : Int
  spinup : Int
  spun_down : Bool
  reads : Nat
  writes : Nat
deriving DecidableEq, Repr

/-- Command-line events that mutate the idle-time list: `-a <name>` and
`-i <seconds>` (hd-idle.cpp:221-236). -/
inductive CmdOpt where
  | addDisk (name : String)
  | setIdle (n : Int)
deriving DecidableEq, Repr

/-- Effect of one `-a` or `-i` option on the idle-time list
(hd-idle.cpp:221-236).  `-a` prepends a fresh entry with the default idle
time; `-i` sets the idle time of the entry most recently created, which is
always the head of the list (the default entry when no `-a` was given
yet). -/
def apply_opt (its : List IDLE_TIME) : CmdOpt → List IDLE_TIME
  | CmdOpt.addDisk n => { name := some n, idle_time := DEFAULT_IDLE_TIME } :: its
  | CmdOpt.setIdle t =>
    match its with
    | [] => []
    | it :: rest => { it with idle_time := t } :: rest

/-- The idle-time list `it_root` after startup: the default entry is
created before option processing (hd-idle.cpp:202-210), then the options
are applied in order. -/
def build_it_root (opts : List CmdOpt) : List IDLE_TIME :=
  opts.foldl apply_opt [{ name := none, idle_time := DEFAULT_IDLE_TIME }]

/-- Idle-time resolution loop for a new disk (hd-idle.cpp:397-402):
return the idle time of the first entry whose name is `NULL` or equal to
the disk name (`strcmp`); `none` when the loop falls through (in the
program this cannot happen because the default entry is always present,
and the field then keeps the value 0 inherited from the zeroed `tmp`). -/
def find_idle_time : List IDLE_TIME → String → Option Int
  | [], _ => none
  | it :: rest, name =>
    if it.name = none ∨ it.name = some name then some it.idle_time
    else find_idle_time rest name

/-- `get_diskstats` (hd-idle.cpp:439-450): first record in `ds_root`
whose name matches (`strcmp`), `none` when there is none. -/
def get_diskstats : List DISKSTATS → String → Option DISKSTATS
  | [], _ => none
  | ds :: rest, name =>
    if ds.name = name then some ds else get_diskstats rest name

/-- Result of one counter-comparison step for one disk: the updated
record and whether a standby command was issued on this cycle. -/
structure StepOut where
  ds : DISKSTATS
  issued : Bool
deriving DecidableEq, Repr

/-- Counter-comparison branches of the main loop body for a disk that
already has a record (hd-idle.cpp:405-429).  `r`/`w` are the freshly read
counters, `now` the cycle timestamp, `standby_ok` the (discarded) result
of `ata_set_standby_mode`. -/
def diskstats_step (ds : DISKSTATS) (r w : Nat) (now : Int)
    (standby_ok : Bool) : StepOut :=
  if ds.reads = r ∧ ds.writes = w then
    if ds.spun_down = false then
      if ds.idle_time ≠ 0 ∧ now - ds.last_io ≥ ds.idle_time then
        { ds := { ds with spindown := now, spun_down := true }, issued := true }
      else { ds := ds, issued := false }
    else { ds := ds, issued := false }
  else
    { ds := { ds with
        spinup := if ds.spun_down then now else ds.spinup,
        reads := r, writes := w, last_io := now, spun_down := false },
      issued := false }

/-- Iterated `diskstats_step` with a fixed counter reading `(r, w)`; each
list element is one cycle's `(now, standby_ok)`.  Returns the final record
and the number of standby commands issued. -/
def run_steps (r w : Nat) : DISKSTATS → List (Int × Bool) → DISKSTATS × Nat
  | ds, [] => (ds, 0)
  | ds, e :: rest =>
    let o := diskstats_step ds r w e.1 e.2
    let p := run_steps r w o.ds rest
    (p.1, (if o.issued then 1 else 0) + p.2)

/-- Iterated `diskstats_step` with a possibly different counter reading on
every cycle; each list element is one cycle's `(reads, writes, now,
standby_ok)`. -/
def run_var : DISKSTATS → List (Nat × Nat × Int × Bool) → DISKSTATS × Nat
  | ds, [] => (ds, 0)
  | ds, e :: rest =>
    let o := diskstats_step ds e.1 e.2.1 e.2.2.1 e.2.2.2
    let p := run_var o.ds rest
    (p.1, (if o.issued then 1 else 0) + p.2)

/-- Drive-type code returned by `GetDriveTypeA`; `DRIVE_FIXED = 3` is the
only type that passes the gate at hd-idle.cpp:316. -/
def DRIVE_FIXED : Nat := 3

/-- Diagnostic text for a non-fixed drive type (switch at
hd-idle.cpp:317-326). -/
def drive_type_string (t : Nat) : String :=
  if t = 0 then "drive unknown"
  else if t = 1 then "root path invalid"
  else if t = 2 then "removable media"
  else if t = 3 then "fixed drive"
  else if t = 4 then "network drive"
  else if t = 5 then "cdrom drive"
  else if t = 6 then "ramdisk"
  else "unknown drive type"

/-- Interpretation of the `ata_check_power_mode` result used only in the
diagnostic messages (switch at hd-idle.cpp:333-343); every other value,
including the failure value -1, leaves the string empty. -/
def ata_power_mode_string (ata : Int) : String :=
  if ata = 0x00 ∨ ata = 0x01 then "standby mode"
  else if ata = 0x80 ∨ ata = 0x81 ∨ ata = 0x82 ∨ ata = 0x83 then "idle mode"
  else if ata = 0xff then "active or idle mode"
  else ""

/-- Results of the external Windows calls made for one device on one
cycle, consumed by the loop body after the handle is opened:
`power_ok`/`power_on` are `GetDevicePowerState`'s return value and `fOn`
(hd-idle.cpp:299), `drive_type` is `GetDriveTypeA`'s result
(hd-idle.cpp:315), `ata_mode` is `ata_check_power_mode`'s result
(hd-idle.cpp:332), `counters` is the `IOCTL_DISK_PERFORMANCE` reading or
`none` when that query fails (hd-idle.cpp:348-358), and `standby_ok` is
`ata_set_standby_mode`'s result (hd-idle.cpp:410). -/
structure CycleInput where
  power_ok : Bool
  power_on : Bool
  drive_type : Nat
  ata_mode : Int
  counters : Option (Nat × Nat)
  standby_ok : Bool
deriving DecidableEq, Repr

/-- Set `spun_down := true` on the first record with the given name, as
the source does through the pointer returned by `get_diskstats`
(hd-idle.cpp:303-306). -/
def mark_spun_down : List DISKSTATS → String → List DISKSTATS
  | [], _ => []
  | ds :: rest, name =>
    if ds.name = name then { ds with spun_down := true } :: rest
    else ds :: mark_spun_down rest name

/-- Replace the first record with the given name, modelling the in-place
mutation of the record returned by `get_diskstats`. -/
def set_diskstats : List DISKSTATS → String → DISKSTATS → List DISKSTATS
  | [], _, _ => []
  | ds :: rest, name, d =>
    if ds.name = name then d :: rest
    else ds :: set_diskstats rest name d

/-- Outcome of one per-device iteration of the main loop: the updated
`ds_root` list, whether a standby command was issued, and the diagnostic
lines printed via `dprintf`. -/
structure ProbeOut where
  ds_root : List DISKSTATS
  issued : Bool
  log : List String
deriving DecidableEq, Repr

/-- One iteration of the per-device main loop body (hd-idle.cpp:280-429)
after the device handle was opened successfully, for the device called
`name` at timestamp `now`, with the external call results in `inp`:

1. if `GetDevicePowerState` failed or reported the device off, mark an
   existing record spun down and stop (hd-idle.cpp:300-309);
2. if the drive is not `DRIVE_FIXED`, stop (hd-idle.cpp:311-328);
3. read the ata power mode, used only for the diagnostic text
   (hd-idle.cpp:330-343);
4. if the counter query failed, stop with the state untouched
   (hd-idle.cpp:358-369);
5. if no record exists, create one with the resolved idle time, the
   current counters, `last_io = spinup = now` and the remaining fields
   zeroed from `tmp` (hd-idle.cpp:378-403);
6. otherwise run the counter-comparison step (hd-idle.cpp:405-429). -/
def probe_disk (it_root : List IDLE_TIME) (ds_root : List DISKSTATS)
    (name : String) (now : Int) (inp : CycleInput) : ProbeOut :=
  if inp.power_ok = false ∨ inp.power_on = false then
    { ds_root := mark_spun_down ds_root name, issued := false,
      log := ["probing " ++ name ++ ": asleep"] }
  else if inp.drive_type ≠ DRIVE_FIXED then
    { ds_root := ds_root, issued := false,
      log := ["probing " ++ name ++ ": " ++ drive_type_string inp.drive_type] }
  else
    let amps := ata_power_mode_string inp.ata_mode
    match inp.counters with
    | none =>
      { ds_root := ds_root, issued := false,
        log := ["probing " ++ name ++ ": cannot query read/write counts"] }
    | some (r, w) =>
      match get_diskstats ds_root name with
      | none =>
        let ds : DISKSTATS :=
          { name := name,
            idle_time := (find_idle_time it_root name).getD 0,
            last_io := now, spindown := 0, spinup := now,
            spun_down := false, reads := r, writes := w }
        { ds_root := ds :: ds_root, issued := false,
          log := ["probing " ++ name ++ ": reads: " ++ toString r ++
                  ", writes: " ++ toString w ++ ", new disk - " ++ amps] }
      | some ds =>
        let o := diskstats_step ds r w now inp.standby_ok
        { ds_root := set_diskstats ds_root name o.ds, issued := o.issued,
          log := ["probing " ++ name ++ ": reads: " ++ toString r ++
                  ", writes: " ++ toString w ++ ", elapsed " ++
                  toString (now - ds.last_io) ++ " / " ++
                  toString ds.idle_time ++
                  (if ds.spun_down then " spun_down 1" else "") ++
                  " - " ++ amps] }

/-- Loop body of the minimum idle time scan (hd-idle.cpp:264-266): take a
nonzero idle time that is strictly smaller than the accumulator. -/
def min_scan_step (m : Int) (it : IDLE_TIME) : Int :=
  if it.idle_time ≠ 0 ∧ it.idle_time < m then it.idle_time else m

/-- Minimum idle time scan (hd-idle.cpp:262-267): fold `min_scan_step`
over the idle-time list starting from the sentinel `1 << 30`. -/
def min_idle_time_of (its : List IDLE_TIME) : Int :=
  its.foldl min_scan_step 1073741824

/-- Sleep-time computation (hd-idle.cpp:268-271): one tenth of the
minimum idle time with C integer division (truncation toward zero),
replaced by 1 when it is 0, then capped at 10. -/
def sleep_time_of (its : List IDLE_TIME) : Int :=
  let s := Int.tdiv (min_idle_time_of its) 10
  let s1 := if s = 0 then 1 else s
  if s1 > 10 then 10 else s1

/-!  Helper lemmas about the counter-comparison step. -/

theorem diskstats_step_quiet (ds : DISKSTATS) (r w : Nat) (now : Int) (ok : Bool)
    (h1 : ds.reads = r) (h2 : ds.writes = w) (h3 : ds.spun_down = false)
    (h4 : now - ds.last_io < ds.idle_time) :
    diskstats_step ds r w now ok = { ds := ds, issued := false } := by
  unfold diskstats_step
  rw [if_pos ⟨h1, h2⟩, if_pos h3, if_neg]
  intro hc
  exact absurd hc.2 (not_le.mpr h4)

theorem diskstats_step_spun (ds : DISKSTATS) (r w : Nat) (now : Int) (ok : Bool)
    (h1 : ds.reads = r) (h2 : ds.writes = w) (h3 : ds.spun_down = true) :
    diskstats_step ds r w now ok = { ds := ds, issued := false } := by
  unfold diskstats_step
  rw [if_pos ⟨h1, h2⟩, if_neg (by simp [h3])]

theorem diskstats_step_fire (ds : DISKSTATS) (r w : Nat) (now : Int) (ok : Bool)
    (h1 : ds.reads = r) (h2 : ds.writes = w) (h3 : ds.spun_down = false)
    (h4 : ds.idle_time ≠ 0) (h5 : now - ds.last_io ≥ ds.idle_time) :
    diskstats_step ds r w now ok =
      { ds := { ds with spindown := now, spun_down := true }, issued := true } := by
  unfold diskstats_step
  rw [if_pos ⟨h1, h2⟩, if_pos h3, if_pos ⟨h4, h5⟩]

theorem diskstats_step_idle_time (ds : DISKSTATS) (r w : Nat) (now : Int) (ok : Bool) :
    (diskstats_step ds r w now ok).ds.idle_time = ds.idle_time := by
  unfold diskstats_step
  repeat' split
  all_goals rfl

theorem diskstats_step_zero (ds : DISKSTATS) (r w : Nat) (now : Int) (ok : Bool)
    (h : ds.idle_time = 0) :
    (diskstats_step ds r w now ok).issued = false := by
  unfold diskstats_step
  split
  · split
    · split
      · next hc => exact absurd h hc.1
      · rfl
    · rfl
  · rfl

/-!  Helper lemmas about iterated steps. -/

theorem run_steps_quiet (r w : Nat) (ds : DISKSTATS) (L : List (Int × Bool))
    (h1 : ds.reads = r) (h2 : ds.writes = w) (h3 : ds.spun_down = false)
    (hL : ∀ e ∈ L, e.1 - ds.last_io < ds.idle_time) :
    run_steps r w ds L = (ds, 0) := by
  induction L with
  | nil => rfl
  | cons e rest ih =>
    have hstep := diskstats_step_quiet ds r w e.1 e.2 h1 h2 h3 (hL e (by simp))
    have hrest := ih (fun x hx => hL x (List.mem_cons_of_mem e hx))
    simp [run_steps, hstep, hrest]

theorem run_steps_spun (r w : Nat) (ds : DISKSTATS) (L : List (Int × Bool))
    (h1 : ds.reads = r) (h2 : ds.writes = w) (h3 : ds.spun_down = true) :
    run_steps r w ds L = (ds, 0) := by
  induction L with
  | nil => rfl
  | cons e rest ih =>
    have hstep := diskstats_step_spun ds r w e.1 e.2 h1 h2 h3
    simp [run_steps, hstep, ih]

theorem run_steps_append (r w : Nat) (ds : DISKSTATS) (L1 L2 : List (Int × Bool)) :
    run_steps r w ds (L1 ++ L2) =
      ((run_steps r w (run_steps r w ds L1).1 L2).1,
       (run_steps r w ds L1).2 + (run_steps r w (run_steps r w ds L1).1 L2).2) := by
  induction L1 generalizing ds with
  | nil => simp [run_steps]
  | cons e rest ih =>
    simp [run_steps, ih]
    omega

theorem run_steps_le_one (r w : Nat) (ds : DISKSTATS) (L : List (Int × Bool))
    (h1 : ds.reads = r) (h2 : ds.writes = w) :
    (run_steps r w ds L).2 ≤ 1 := by
  induction L generalizing ds with
  | nil => exact Nat.zero_le 1
  | cons e rest ih =>
    cases h3 : ds.spun_down with
    | true =>
      rw [run_steps_spun r w ds (e :: rest) h1 h2 h3]
      exact Nat.zero_le 1
    | false =>
      by_cases hc : ds.idle_time ≠ 0 ∧ e.1 - ds.last_io ≥ ds.idle_time
      · have hstep := diskstats_step_fire ds r w e.1 e.2 h1 h2 h3 hc.1 hc.2
        have hrest := run_steps_spun r w
          { ds with spindown := e.1, spun_down := true } rest h1 h2 rfl
        simp [run_steps, hstep, hrest]
      · have hstep : diskstats_step ds r w e.1 e.2 = { ds := ds, issued := false } := by
          unfold diskstats_step
          rw [if_pos ⟨h1, h2⟩, if_pos h3, if_neg hc]
        simp [run_steps, hstep]
        exact ih ds h1 h2

/-- C1: for a disk whose resolved idle time is positive and whose
counters stay at their stored values, the run over any cycles strictly
below the threshold followed by the first cycle `t` with
`t - last_io >= idle_time` (the comparison is `>=`, so idle time exactly
equal to the threshold already fires) issues exactly one standby command;
the command is issued on that first qualifying cycle, the disk is then
marked spun down, and any disk already marked spun down whose counters
stay unchanged never issues another command. -/
theorem C1_exactly_one_standby (ds : DISKSTATS) (pre post : List (Int × Bool))
    (t : Int) (okt : Bool) (ds2 : DISKSTATS) (L2 : List (Int × Bool))
    (hT : 0 < ds.idle_time) (hsd : ds.spun_down = false)
    (hpre : ∀ e ∈ pre, e.1 - ds.last_io < ds.idle_time)
    (ht : t - ds.last_io ≥ ds.idle_time)
    (hsd2 : ds2.spun_down = true) :
    (run_steps ds.reads ds.writes ds (pre ++ (t, okt) :: post)).2 = 1 ∧
    (run_steps ds.reads ds.writes ds pre).2 = 0 ∧
    (diskstats_step (run_steps ds.reads ds.writes ds pre).1
      ds.reads ds.writes t okt).issued = true ∧
    ((run_steps ds.reads ds.writes ds (pre ++ [(t, okt)])).1).spun_down = true ∧
    (run_steps ds2.reads ds2.writes ds2 L2).2 = 0 := by
  have hq := run_steps_quiet ds.reads ds.writes ds pre rfl rfl hsd hpre
  have hfire := diskstats_step_fire ds ds.reads ds.writes t okt rfl rfl hsd
    (by omega) ht
  have hspun := run_steps_spun ds.reads ds.writes
    { ds with spindown := t, spun_down := true } post rfl rfl rfl
  refine ⟨?_, ?_, ?_, ?_, ?_⟩
  · rw [run_steps_append, hq]
    simp [run_steps, hfire, hspun]
  · rw [hq]
  · rw [hq]
    simp [hfire]
  · rw [run_steps_append, hq]
    simp [run_steps, hfire]
  · rw [run_steps_spun ds2.reads ds2.writes ds2 L2 rfl rfl hsd2]

/-- C1 witness: the spec scenario — threshold 90, baseline at time 0,
quiet cycles at 30 and 60, the command fires exactly at time 90. -/
theorem C1_witness :
    (run_steps 100 50
      { name := "a", idle_time := 90, last_io := 0, spindown := 0, spinup := 0,
        spun_down := false, reads := 100, writes := 50 }
      ([(30, true), (60, true)] ++ (90, true) :: [(120, true)])).2 = 1 ∧
    (run_steps 100 50
      { name := "a", idle_time := 90, last_io := 0, spindown := 0, spinup := 0,
        spun_down := false, reads := 100, writes := 50 }
      [(30, true), (60, true)]).2 = 0 ∧
    (diskstats_step
      (run_steps 100 50
        { name := "a", idle_time := 90, last_io := 0, spindown := 0, spinup := 0,
          spun_down := false, reads := 100, writes := 50 }
        [(30, true), (60, true)]).1 100 50 90 true).issued = true ∧
    ((run_steps 100 50
      { name := "a", idle_time := 90, last_io := 0, spindown := 0, spinup := 0,
        spun_down := false, reads := 100, writes := 50 }
      ([(30, true), (60, true)] ++ [(90, true)])).1).spun_down = true ∧
    (run_steps 1 2
      { name := "b", idle_time := 60, last_io := 0, spindown := 0, spinup := 0,
        spun_down := true, reads := 1, writes := 2 }
      [(1000, true), (2000, true)]).2 = 0 :=
  C1_exactly_one_standby
    { name := "a", idle_time := 90, last_io := 0, spindown := 0, spinup := 0,
      spun_down := false, reads := 100, writes := 50 }
    [(30, true), (60, true)] [(120, true)] 90 true
    { name := "b", idle_time := 60, last_io := 0, spindown := 0, spinup := 0,
      spun_down := true, reads := 1, writes := 2 }
    [(1000, true), (2000, true)]
    (by decide) rfl (by decide) (by decide) rfl

/-- C5: a disk whose resolved idle time is 0 never has a standby command
issued, over any sequence of cycles with arbitrary counter readings. -/
theorem C5_zero_idle_never_issues (ds : DISKSTATS)
    (L : List (Nat × Nat × Int × Bool)) (h : ds.idle_time = 0) :
    (run_var ds L).2 = 0 := by
  induction L generalizing ds with
  | nil => rfl
  | cons e rest ih =>
    have h2 : (diskstats_step ds e.1 e.2.1 e.2.2.1 e.2.2.2).ds.idle_time = 0 := by
      rw [diskstats_step_idle_time]
      exact h
    simp [run_var, diskstats_step_zero ds e.1 e.2.1 e.2.2.1 e.2.2.2 h, ih _ h2]

/-- C5 witness: idle time 0, long quiet stretch and counter activity,
no command ever issued. -/
theorem C5_witness :
    (run_var
      { name := "a", idle_time := 0, last_io := 0, spindown := 0, spinup := 0,
        spun_down := false, reads := 0, writes := 0 }
      [(0, 0, 100, true), (5, 1, 200, true), (5, 1, 100000, true)]).2 = 0 :=
  C5_zero_idle_never_issues _ _ rfl

/-- C6: any difference between the fresh counter reading and the stored
one — including a decrease, i.e. wraparound — is treated as activity: no
command is issued, the stored counters and `last_io` are refreshed,
`spun_down` is cleared, `spinup` is set to `now` exactly when the disk
was spun down, and the remaining fields are untouched. -/
theorem C6_counter_change_is_activity (ds : DISKSTATS) (r w : Nat) (now : Int)
    (ok : Bool) (h : ¬(ds.reads = r ∧ ds.writes = w)) :
    (diskstats_step ds r w now ok).issued = false ∧
    (diskstats_step ds r w now ok).ds.reads = r ∧
    (diskstats_step ds r w now ok).ds.writes = w ∧
    (diskstats_step ds r w now ok).ds.last_io = now ∧
    (diskstats_step ds r w now ok).ds.spun_down = false ∧
    (diskstats_step ds r w now ok).ds.spinup
      = (if ds.spun_down then now else ds.spinup) ∧
    (diskstats_step ds r w now ok).ds.spindown = ds.spindown ∧
    (diskstats_step ds r w now ok).ds.idle_time = ds.idle_time ∧
    (diskstats_step ds r w now ok).ds.name = ds.name := by
  unfold diskstats_step
  rw [if_neg h]
  exact ⟨rfl, rfl, rfl, rfl, rfl, rfl, rfl, rfl, rfl⟩

/-- C6 witness: a spun-down disk whose read counter decreased (wraparound)
is treated as active; `spinup` is set to the cycle timestamp. -/
theorem C6_witness :
    (diskstats_step
      { name := "a", idle_time := 60, last_io := 0, spindown := 50, spinup := 0,
        spun_down := true, reads := 100, writes := 50 } 5 50 70 true).issued = false ∧
    (diskstats_step
      { name := "a", idle_time := 60, last_io := 0, spindown := 50, spinup := 0,
        spun_down := true, reads := 100, writes := 50 } 5 50 70 true).ds.reads = 5 ∧
    (diskstats_step
      { name := "a", idle_time := 60, last_io := 0, spindown := 50, spinup := 0,
        spun_down := true, reads := 100, writes := 50 } 5 50 70 true).ds.writes = 50 ∧
    (diskstats_step
      { name := "a", idle_time := 60, last_io := 0, spindown := 50, spinup := 0,
        spun_down := true, reads := 100, writes := 50 } 5 50 70 true).ds.last_io = 70 ∧
    (diskstats_step
      { name := "a", idle_time := 60, last_io := 0, spindown := 50, spinup := 0,
        spun_down := true, reads := 100, writes := 50 } 5 50 70 true).ds.spun_down = false ∧
    (diskstats_step
      { name := "a", idle_time := 60, last_io := 0, spindown := 50, spinup := 0,
        spun_down := true, reads := 100, writes := 50 } 5 50 70 true).ds.spinup = 70 ∧
    (diskstats_step
      { name := "a", idle_time := 60, last_io := 0, spindown := 50, spinup := 0,
        spun_down := true, reads := 100, writes := 50 } 5 50 70 true).ds.spindown = 50 ∧
    (diskstats_step
      { name := "a", idle_time := 60, last_io := 0, spindown := 50, spinup := 0,
        spun_down := true, reads := 100, writes := 50 } 5 50 70 true).ds.idle_time = 60 ∧
    (diskstats_step
      { name := "a", idle_time := 60, last_io := 0, spindown := 50, spinup := 0,
        spun_down := true, reads := 100, writes := 50 } 5 50 70 true).ds.name = "a" :=
  C6_counter_change_is_activity
    { name := "a", idle_time := 60, last_io := 0, spindown := 50, spinup := 0,
      spun_down := true, reads := 100, writes := 50 } 5 50 70 true (by decide)

/-- C7: when the threshold is met, the step's result does not depend on
the result of the standby command (`ata_set_standby_mode`'s return value
is discarded): the updated record is the same whether the command
succeeded or failed, `spindown` is set to `now` and `spun_down` to
`true` in either case, and over any run with unchanged counters the
command is attempted at most once. -/
theorem C7_standby_result_ignored (ds : DISKSTATS) (r w : Nat) (now : Int)
    (ok1 ok2 : Bool) (L : List (Int × Bool))
    (h1 : ds.reads = r) (h2 : ds.writes = w) (hsd : ds.spun_down = false)
    (hnz : ds.idle_time ≠ 0) (hth : now - ds.last_io ≥ ds.idle_time) :
    diskstats_step ds r w now ok1 = diskstats_step ds r w now ok2 ∧
    (diskstats_step ds r w now ok1).ds.spindown = now ∧
    (diskstats_step ds r w now ok1).ds.spun_down = true ∧
    (diskstats_step ds r w now ok1).issued = true ∧
    (run_steps r w ds L).2 ≤ 1 := by
  have hfire1 := diskstats_step_fire ds r w now ok1 h1 h2 hsd hnz hth
  have hfire2 := diskstats_step_fire ds r w now ok2 h1 h2 hsd hnz hth
  refine ⟨hfire1.trans hfire2.symm, ?_, ?_, ?_, run_steps_le_one r w ds L h1 h2⟩
  · rw [hfire1]
  · rw [hfire1]
  · rw [hfire1]

/-- C7 witness: threshold met at time 80; the step with a failed command
equals the step with a successful one, and a long unchanged run issues at
most one command. -/
theorem C7_witness :
    diskstats_step
      { name := "a", idle_time := 60, last_io := 0, spindown := 0, spinup := 0,
        spun_down := false, reads := 3, writes := 4 } 3 4 80 true =
    diskstats_step
      { name := "a", idle_time := 60, last_io := 0, spindown := 0, spinup := 0,
        spun_down := false, reads := 3, writes := 4 } 3 4 80 false ∧
    (diskstats_step
      { name := "a", idle_time := 60, last_io := 0, spindown := 0, spinup := 0,
        spun_down := false, reads := 3, writes := 4 } 3 4 80 true).ds.spindown = 80 ∧
    (diskstats_step
      { name := "a", idle_time := 60, last_io := 0, spindown := 0, spinup := 0,
        spun_down := false, reads := 3, writes := 4 } 3 4 80 true).ds.spun_down = true ∧
    (diskstats_step
      { name := "a", idle_time := 60, last_io := 0, spindown := 0, spinup := 0,
        spun_down := false, reads := 3, writes := 4 } 3 4 80 true).issued = true ∧
    (run_steps 3 4
      { name := "a", idle_time := 60, last_io := 0, spindown := 0, spinup := 0,
        spun_down := false, reads := 3, writes := 4 }
      [(80, false), (200, false), (500, true)]).2 ≤ 1 :=
  C7_standby_result_ignored
    { name := "a", idle_time := 60, last_io := 0, spindown := 0, spinup := 0,
      spun_down := false, reads := 3, writes := 4 } 3 4 80 true false
    [(80, false), (200, false), (500, true)]
    rfl rfl rfl (by decide) (by decide)

/-!  Helper lemmas about marking an existing record spun down. -/

theorem mark_spun_down_not_found (root : List DISKSTATS) (name : String)
    (h : get_diskstats root name = none) : mark_spun_down root name = root := by
  induction root with
  | nil => rfl
  | cons d rest ih =>
    unfold get_diskstats at h
    unfold mark_spun_down
    by_cases hn : d.name = name
    · rw [if_pos hn] at h
      cases h
    · rw [if_neg hn] at h
      rw [if_neg hn, ih h]

theorem mark_spun_down_found (root : List DISKSTATS) (name : String)
    (ds : DISKSTATS) (h : get_diskstats root name = some ds) :
    get_diskstats (mark_spun_down root name) name
      = some { ds with spun_down := true } := by
  induction root with
  | nil => cases h
  | cons d rest ih =>
    unfold get_diskstats at h
    by_cases hn : d.name = name
    · rw [if_pos hn] at h
      injection h with h
      subst h
      unfold mark_spun_down
      rw [if_pos hn]
      unfold get_diskstats
      rw [if_pos hn]
    · rw [if_neg hn] at h
      unfold mark_spun_down
      rw [if_neg hn]
      unfold get_diskstats
      rw [if_neg hn]
      exact ih h

/-- C2 counterexample: a device that reports powered off on its very
first observation does not get a `DISKSTATS` record created — the asleep
branch only marks an already existing record, so the step ends with no
record for the device at all, contradicting the claim that it ends with a
record whose `spun_down` is true. -/
theorem C2_counterexample :
    (probe_disk (build_it_root []) [] "a" 0
      { power_ok := true, power_on := false, drive_type := 3, ata_mode := 255,
        counters := some (7, 9), standby_ok := true }).ds_root = [] ∧
    get_diskstats
      ((probe_disk (build_it_root []) [] "a" 0
        { power_ok := true, power_on := false, drive_type := 3, ata_mode := 255,
          counters := some (7, 9), standby_ok := true }).ds_root) "a" = none :=
  ⟨rfl, rfl⟩

/-- C2 (amended): when the power probe reports the device off, the step
marks `spun_down = true` on the device's existing record if there is one,
issues no command and reads no counters (the result is `mark_spun_down`
of the old list, independent of the counter reading); for a previously
unseen device no record is created and the list is unchanged. -/
theorem C2_power_off_marks_existing (it_root : List IDLE_TIME)
    (ds_root : List DISKSTATS) (name : String) (now : Int) (inp : CycleInput)
    (ds : DISKSTATS) (h : inp.power_on = false) :
    (probe_disk it_root ds_root name now inp).ds_root
      = mark_spun_down ds_root name ∧
    (probe_disk it_root ds_root name now inp).issued = false ∧
    (get_diskstats ds_root name = none →
      (probe_disk it_root ds_root name now inp).ds_root = ds_root) ∧
    (get_diskstats ds_root name = some ds →
      get_diskstats ((probe_disk it_root ds_root name now inp).ds_root) name
        = some { ds with spun_down := true }) := by
  have hcond : inp.power_ok = false ∨ inp.power_on = false := Or.inr h
  unfold probe_disk
  rw [if_pos hcond]
  exact ⟨rfl, rfl,
    fun hn => mark_spun_down_not_found ds_root name hn,
    fun hs => mark_spun_down_found ds_root name ds hs⟩

/-- C2 witness: device "a" has a record and reports off; the step leaves
exactly that record marked spun down. -/
theorem C2_witness :
    (probe_disk (build_it_root [])
      [{ name := "a", idle_time := 60, last_io := 0, spindown := 0, spinup := 0,
         spun_down := false, reads := 3, writes := 4 }] "a" 5
      { power_ok := true, power_on := false, drive_type := 3, ata_mode := 0,
        counters := some (3, 4), standby_ok := true }).ds_root
      = mark_spun_down
        [{ name := "a", idle_time := 60, last_io := 0, spindown := 0, spinup := 0,
           spun_down := false, reads := 3, writes := 4 }] "a" ∧
    (probe_disk (build_it_root [])
      [{ name := "a", idle_time := 60, last_io := 0, spindown := 0, spinup := 0,
         spun_down := false, reads := 3, writes := 4 }] "a" 5
      { power_ok := true, power_on := false, drive_type := 3, ata_mode := 0,
        counters := some (3, 4), standby_ok := true }).issued = false ∧
    (get_diskstats
      [{ name := "a", idle_time := 60, last_io := 0, spindown := 0, spinup := 0,
         spun_down := false, reads := 3, writes := 4 }] "a" = none →
      (probe_disk (build_it_root [])
        [{ name := "a", idle_time := 60, last_io := 0, spindown := 0, spinup := 0,
           spun_down := false, reads := 3, writes := 4 }] "a" 5
        { power_ok := true, power_on := false, drive_type := 3, ata_mode := 0,
          counters := some (3, 4), standby_ok := true }).ds_root
        = [{ name := "a", idle_time := 60, last_io := 0, spindown := 0, spinup := 0,
             spun_down := false, reads := 3, writes := 4 }]) ∧
    (get_diskstats
      [{ name := "a", idle_time := 60, last_io := 0, spindown := 0, spinup := 0,
         spun_down := false, reads := 3, writes := 4 }] "a"
        = some { name := "a", idle_time := 60, last_io := 0, spindown := 0,
                 spinup := 0, spun_down := false, reads := 3, writes := 4 } →
      get_diskstats
        ((probe_disk (build_it_root [])
          [{ name := "a", idle_time := 60, last_io := 0, spindown := 0, spinup := 0,
             spun_down := false, reads := 3, writes := 4 }] "a" 5
          { power_ok := true, power_on := false, drive_type := 3, ata_mode := 0,
            counters := some (3, 4), standby_ok := true }).ds_root) "a"
        = some { name := "a", idle_time := 60, last_io := 0, spindown := 0,
                 spinup := 0, spun_down := true, reads := 3, writes := 4 }) :=
  C2_power_off_marks_existing (build_it_root [])
    [{ name := "a", idle_time := 60, last_io := 0, spindown := 0, spinup := 0,
       spun_down := false, reads := 3, writes := 4 }] "a" 5
    { power_ok := true, power_on := false, drive_type := 3, ata_mode := 0,
      counters := some (3, 4), standby_ok := true }
    { name := "a", idle_time := 60, last_io := 0, spindown := 0, spinup := 0,
      spun_down := false, reads := 3, writes := 4 } rfl

/-- C9: a power probe whose call fails (`GetDevicePowerState` returns 0)
is handled exactly like a device that reports powered off: an existing
record is marked `spun_down = true`, the step issues no command and
touches nothing else, no record is created for an unseen device, and the
whole step result — log included — is the same as for a device reporting
off. -/
theorem C9_probe_failure_like_off (it_root : List IDLE_TIME)
    (ds_root : List DISKSTATS) (name : String) (now : Int) (inp : CycleInput)
    (ds : DISKSTATS) (h : inp.power_ok = false) :
    (probe_disk it_root ds_root name now inp).ds_root
      = mark_spun_down ds_root name ∧
    (probe_disk it_root ds_root name now inp).issued = false ∧
    (get_diskstats ds_root name = none →
      (probe_disk it_root ds_root name now inp).ds_root = ds_root) ∧
    (get_diskstats ds_root name = some ds →
      get_diskstats ((probe_disk it_root ds_root name now inp).ds_root) name
        = some { ds with spun_down := true }) ∧
    probe_disk it_root ds_root name now
        { inp with power_ok := false, power_on := true }
      = probe_disk it_root ds_root name now
        { inp with power_ok := true, power_on := false } := by
  have hcond : inp.power_ok = false ∨ inp.power_on = false := Or.inl h
  unfold probe_disk
  rw [if_pos hcond]
  refine ⟨rfl, rfl,
    fun hn => mark_spun_down_not_found ds_root name hn,
    fun hs => mark_spun_down_found ds_root name ds hs, rfl⟩

/-- C9 witness: probe-call failure on a one-record list marks the record
spun down; on an empty list nothing is created. -/
theorem C9_witness :
    (probe_disk (build_it_root [])
      [{ name := "b", idle_time := 60, last_io := 0, spindown := 0, spinup := 0,
         spun_down := false, reads := 1, writes := 1 }] "b" 9
      { power_ok := false, power_on := true, drive_type := 3, ata_mode := 255,
        counters := none, standby_ok := false }).ds_root
      = mark_spun_down
        [{ name := "b", idle_time := 60, last_io := 0, spindown := 0, spinup := 0,
           spun_down := false, reads := 1, writes := 1 }] "b" ∧
    (probe_disk (build_it_root [])
      [{ name := "b", idle_time := 60, last_io := 0, spindown := 0, spinup := 0,
         spun_down := false, reads := 1, writes := 1 }] "b" 9
      { power_ok := false, power_on := true, drive_type := 3, ata_mode := 255,
        counters := none, standby_ok := false }).issued = false ∧
    (get_diskstats
      [{ name := "b", idle_time := 60, last_io := 0, spindown := 0, spinup := 0,
         spun_down := false, reads := 1, writes := 1 }] "b" = none →
      (probe_disk (build_it_root [])
        [{ name := "b", idle_time := 60, last_io := 0, spindown := 0, spinup := 0,
           spun_down := false, reads := 1, writes := 1 }] "b" 9
        { power_ok := false, power_on := true, drive_type := 3, ata_mode := 255,
          counters := none, standby_ok := false }).ds_root
        = [{ name := "b", idle_time := 60, last_io := 0, spindown := 0, spinup := 0,
             spun_down := false, reads := 1, writes := 1 }]) ∧
    (get_diskstats
      [{ name := "b", idle_time := 60, last_io := 0, spindown := 0, spinup := 0,
         spun_down := false, reads := 1, writes := 1 }] "b"
        = some { name := "b", idle_time := 60, last_io := 0, spindown := 0,
                 spinup := 0, spun_down := false, reads := 1, writes := 1 } →
      get_diskstats
        ((probe_disk (build_it_root [])
          [{ name := "b", idle_time := 60, last_io := 0, spindown := 0, spinup := 0,
             spun_down := false, reads := 1, writes := 1 }] "b" 9
          { power_ok := false, power_on := true, drive_type := 3, ata_mode := 255,
            counters := none, standby_ok := false }).ds_root) "b"
        = some { name := "b", idle_time := 60, last_io := 0, spindown := 0,
                 spinup := 0, spun_down := true, reads := 1, writes := 1 }) ∧
    probe_disk (build_it_root [])
      [{ name := "b", idle_time := 60, last_io := 0, spindown := 0, spinup := 0,
         spun_down := false, reads := 1, writes := 1 }] "b" 9
      { power_ok := false, power_on := true, drive_type := 3, ata_mode := 255,
        counters := none, standby_ok := false }
      = probe_disk (build_it_root [])
        [{ name := "b", idle_time := 60, last_io := 0, spindown := 0, spinup := 0,
           spun_down := false, reads := 1, writes := 1 }] "b" 9
        { power_ok := true, power_on := false, drive_type := 3, ata_mode := 255,
          counters := none, standby_ok := false } :=
  C9_probe_failure_like_off (build_it_root [])
    [{ name := "b", idle_time := 60, last_io := 0, spindown := 0, spinup := 0,
       spun_down := false, reads := 1, writes := 1 }] "b" 9
    { power_ok := false, power_on := true, drive_type := 3, ata_mode := 255,
      counters := none, standby_ok := false }
    { name := "b", idle_time := 60, last_io := 0, spindown := 0, spinup := 0,
      spun_down := false, reads := 1, writes := 1 } rfl

/-- C10: the `ata_check_power_mode` reading taken during a cycle never
influences the engine: for any two values of the reading — the failure
value -1 included — the resulting record list and the decision whether a
standby command is issued are identical; the reading only selects the
diagnostic text appended to the log. -/
theorem C10_ata_mode_no_influence (it_root : List IDLE_TIME)
    (ds_root : List DISKSTATS) (name : String) (now : Int) (inp : CycleInput)
    (a1 a2 : Int) :
    (probe_disk it_root ds_root name now { inp with ata_mode := a1 }).ds_root
      = (probe_disk it_root ds_root name now { inp with ata_mode := a2 }).ds_root ∧
    (probe_disk it_root ds_root name now { inp with ata_mode := a1 }).issued
      = (probe_disk it_root ds_root name now { inp with ata_mode := a2 }).issued := by
  obtain ⟨po, pn, dt, am, cnt, ok⟩ := inp
  dsimp only [probe_disk]
  by_cases h1 : po = false ∨ pn = false
  · rw [if_pos h1, if_pos h1]
    exact ⟨rfl, rfl⟩
  · rw [if_neg h1, if_neg h1]
    by_cases h2 : dt ≠ DRIVE_FIXED
    · rw [if_pos h2, if_pos h2]
      exact ⟨rfl, rfl⟩
    · rw [if_neg h2, if_neg h2]
      cases cnt with
      | none => exact ⟨rfl, rfl⟩
      | some p =>
        obtain ⟨r, w⟩ := p
        cases hge : get_diskstats ds_root name with
        | none => simp only [hge]; exact ⟨trivial, trivial⟩
        | some ds => simp only [hge]; exact ⟨trivial, trivial⟩

/-!  Policy-table structure: the idle-time list built from the command
line is always a block of named entries followed by the single default
entry (the default is created first and every later entry is prepended,
hd-idle.cpp:202-231). -/

def first_named : List IDLE_TIME → String → Option IDLE_TIME
  | [], _ => none
  | e :: rest, name =>
    if e.name = some name then some e else first_named rest name

/-- The list is a block of named entries followed by one default entry. -/
def it_list_shaped (its : List IDLE_TIME) : Prop :=
  ∃ pre d, its = pre ++ [{ name := none, idle_time := d }] ∧
    ∀ e ∈ pre, e.name ≠ none

theorem it_list_shaped_apply_opt (its : List IDLE_TIME) (o : CmdOpt)
    (h : it_list_shaped its) : it_list_shaped (apply_opt its o) := by
  obtain ⟨pre, d, heq, hpre⟩ := h
  cases o with
  | addDisk n =>
    refine ⟨{ name := some n, idle_time := DEFAULT_IDLE_TIME } :: pre, d, ?_, ?_⟩
    · rw [apply_opt, heq]
      rfl
    · intro e he
      rcases List.mem_cons.mp he with h1 | h1
      · rw [h1]
        simp
      · exact hpre e h1
  | setIdle t =>
    cases pre with
    | nil =>
      refine ⟨[], t, ?_, ?_⟩
      · rw [heq]
        rfl
      · intro e he
        cases he
    | cons p rest =>
      refine ⟨{ p with idle_time := t } :: rest, d, ?_, ?_⟩
      · rw [heq]
        rfl
      · intro e he
        rcases List.mem_cons.mp he with h1 | h1
        · rw [h1]
          exact hpre p (List.mem_cons_self p rest)
        · exact hpre e (List.mem_cons_of_mem p h1)

theorem it_list_shaped_foldl (opts : List CmdOpt) (its : List IDLE_TIME)
    (h : it_list_shaped its) : it_list_shaped (opts.foldl apply_opt its) := by
  induction opts generalizing its with
  | nil => exact h
  | cons o rest ih => exact ih (apply_opt its o) (it_list_shaped_apply_opt its o h)

theorem it_list_shaped_build (opts : List CmdOpt) :
    it_list_shaped (build_it_root opts) :=
  it_list_shaped_foldl opts _ ⟨[], DEFAULT_IDLE_TIME, rfl, by intro e he; cases he⟩

theorem find_idle_time_shaped (pre : List IDLE_TIME) (d : Int) (name : String)
    (hpre : ∀ e ∈ pre, e.name ≠ none) :
    find_idle_time (pre ++ [{ name := none, idle_time := d }]) name
      = some (match first_named pre name with
              | some e => e.idle_time
              | none => d) := by
  induction pre with
  | nil =>
    rw [List.nil_append]
    unfold find_idle_time
    rw [if_pos (Or.inl rfl)]
    rfl
  | cons e rest ih =>
    rw [List.cons_append]
    by_cases hn : e.name = some name
    · unfold find_idle_time first_named
      rw [if_pos (Or.inr hn), if_pos hn]
    · have hcond : ¬(e.name = none ∨ e.name = some name) := by
        intro hc
        rcases hc with h1 | h1
        · exact hpre e (List.mem_cons_self e rest) h1
        · exact hn h1
      unfold find_idle_time first_named
      rw [if_neg hcond, if_neg hn]
      exact ih (fun x hx => hpre x (List.mem_cons_of_mem e hx))

theorem find_idle_time_default_isSome (pre : List IDLE_TIME) (d : Int)
    (name : String) :
    (find_idle_time (pre ++ [{ name := none, idle_time := d }]) name).isSome
      = true := by
  induction pre with
  | nil =>
    rw [List.nil_append]
    unfold find_idle_time
    rw [if_pos (Or.inl rfl)]
    rfl
  | cons e rest ih =>
    rw [List.cons_append]
    unfold find_idle_time
    by_cases hc : e.name = none ∨ e.name = some name
    · rw [if_pos hc]
      rfl
    · rw [if_neg hc]
      exact ih

/-- C4: idle-time resolution over the startup-built list returns the
idle time of the first entry whose name is string-equal to the device
name; the default (nameless) entry decides only when no named entry
matches, because it sits at the very end of the list; resolution over any
startup-built list always succeeds; and since `-a` entries are prepended,
the most recently given `-a`
(with its following `-i`) for a name wins over every earlier entry for
the same name. -/
theorem C4_policy_resolution (pre : List IDLE_TIME) (d : Int) (name n : String)
    (t : Int) (opts : List CmdOpt)
    (hpre : ∀ e ∈ pre, e.name ≠ none) :
    find_idle_time (pre ++ [{ name := none, idle_time := d }]) name
      = some (match first_named pre name with
              | some e => e.idle_time
              | none => d) ∧
    (find_idle_time (build_it_root opts) name).isSome = true ∧
    find_idle_time
        (build_it_root (opts ++ [CmdOpt.addDisk n, CmdOpt.setIdle t])) n
      = some t := by
  refine ⟨find_idle_time_shaped pre d name hpre, ?_, ?_⟩
  · obtain ⟨pre2, d2, heq, hpre2⟩ := it_list_shaped_build opts
    rw [heq]
    exact find_idle_time_default_isSome pre2 d2 name
  · rw [build_it_root, List.foldl_append]
    have h2 : List.foldl apply_opt
        (List.foldl apply_opt
          [{ name := none, idle_time := DEFAULT_IDLE_TIME }] opts)
        [CmdOpt.addDisk n, CmdOpt.setIdle t]
        = { name := some n, idle_time := t } ::
            List.foldl apply_opt
              [{ name := none, idle_time := DEFAULT_IDLE_TIME }] opts := rfl
    rw [h2]
    unfold find_idle_time
    rw [if_pos (Or.inr rfl)]

/-- C4 witness: the spec example `[("sdb", 120), (default, 600)]` resolves
"sdb" to 120; resolution over a built table is always defined; a later
`-a x -i 5` overrides an earlier `-a x -i 9`. -/
theorem C4_witness :
    find_idle_time
        ([{ name := some "sdb", idle_time := 120 }]
          ++ [{ name := none, idle_time := 600 }]) "sdb" = some 120 ∧
    (find_idle_time
        (build_it_root [CmdOpt.addDisk "x", CmdOpt.setIdle 9]) "sdb").isSome
      = true ∧
    find_idle_time
        (build_it_root ([CmdOpt.addDisk "x", CmdOpt.setIdle 9]
          ++ [CmdOpt.addDisk "x", CmdOpt.setIdle 5])) "x" = some 5 :=
  C4_policy_resolution [{ name := some "sdb", idle_time := 120 }] 600 "sdb" "x" 5
    [CmdOpt.addDisk "x", CmdOpt.setIdle 9] (by decide)

/-- C3: evaluation at the failing input.  With no command-line options the
table holds exactly the default entry and an unmatched device resolves to
`DEFAULT_IDLE_TIME = 60` seconds, not to the 600 seconds stated by the
claim (and by the source's own header comment, hd-idle.cpp:33, which says
the default is 10 minutes). -/
theorem C3_default_is_60_not_600 :
    DEFAULT_IDLE_TIME = 60 ∧
    build_it_root [] = [{ name := none, idle_time := 60 }] ∧
    find_idle_time (build_it_root []) "a" = some 60 ∧
    find_idle_time (build_it_root []) "a" ≠ some 600 := by
  refine ⟨rfl, rfl, rfl, ?_⟩
  intro h
  cases h

/-!  Properties of the minimum idle time scan. -/

theorem min_scan_foldl_nonneg (its : List IDLE_TIME) (m : Int) (hm : 0 ≤ m)
    (h0 : ∀ e ∈ its, 0 ≤ e.idle_time) : 0 ≤ its.foldl min_scan_step m := by
  induction its generalizing m with
  | nil => exact hm
  | cons d rest ih =>
    rw [List.foldl_cons]
    have hstep : 0 ≤ min_scan_step m d := by
      unfold min_scan_step
      split
      · exact h0 d (List.mem_cons_self d rest)
      · exact hm
    exact ih (min_scan_step m d) hstep
      (fun x hx => h0 x (List.mem_cons_of_mem d hx))

theorem min_scan_foldl_le_init (its : List IDLE_TIME) (m : Int) :
    its.foldl min_scan_step m ≤ m := by
  induction its generalizing m with
  | nil => exact le_refl m
  | cons d rest ih =>
    rw [List.foldl_cons]
    refine le_trans (ih (min_scan_step m d)) ?_
    unfold min_scan_step
    split
    · next hc => exact le_of_lt hc.2
    · exact le_refl m

theorem min_scan_foldl_le_elem (its : List IDLE_TIME) (m : Int) (e : IDLE_TIME)
    (he : e ∈ its) (hnz : e.idle_time ≠ 0) :
    its.foldl min_scan_step m ≤ e.idle_time := by
  induction its generalizing m with
  | nil => cases he
  | cons d rest ih =>
    rw [List.foldl_cons]
    rcases List.mem_cons.mp he with h1 | h1
    · subst h1
      refine le_trans (min_scan_foldl_le_init rest (min_scan_step m e)) ?_
      unfold min_scan_step
      split
      · exact le_refl _
      · next hc =>
        push_neg at hc
        exact hc hnz
    · exact ih (min_scan_step m d) h1

theorem min_scan_foldl_cases (its : List IDLE_TIME) (m : Int) :
    its.foldl min_scan_step m = m ∨
      ∃ e ∈ its, e.idle_time ≠ 0 ∧ its.foldl min_scan_step m = e.idle_time := by
  induction its generalizing m with
  | nil => exact Or.inl rfl
  | cons d rest ih =>
    rw [List.foldl_cons]
    rcases ih (min_scan_step m d) with h | ⟨e, he, hnz, heq⟩
    · rw [h]
      unfold min_scan_step
      split
      · next hc => exact Or.inr ⟨d, List.mem_cons_self d rest, hc.1, rfl⟩
      · exact Or.inl rfl
    · exact Or.inr ⟨e, List.mem_cons_of_mem d he, hnz, heq⟩

theorem min_scan_foldl_all_zero (its : List IDLE_TIME) (m : Int)
    (h : ∀ e ∈ its, e.idle_time = 0) : its.foldl min_scan_step m = m := by
  induction its generalizing m with
  | nil => rfl
  | cons d rest ih =>
    rw [List.foldl_cons]
    have hd : min_scan_step m d = m := by
      unfold min_scan_step
      rw [if_neg]
      intro hc
      exact hc.1 (h d (List.mem_cons_self d rest))
    rw [hd]
    exact ih m (fun x hx => h x (List.mem_cons_of_mem d hx))

/-- C8 counterexample: when every policy entry has idle time 0 (a `-i 0`
with no `-a` makes the default entry the only, all-zero entry), the scan
keeps its `1 << 30` sentinel, one tenth of which is far above the cap, so
the sleep time is 10 — not the floor 1 stated by the claim. -/
theorem C8_counterexample :
    sleep_time_of [{ name := none, idle_time := 0 }] = 10 ∧
    ¬ sleep_time_of [{ name := none, idle_time := 0 }] = 1 := by
  decide

/-- C8 (amended): for nonnegative idle times the sleep interval equals
`max(1, m / 10)` capped at 10, where `m` is the scan result; the scan
result is a lower bound of every nonzero idle time and is either the
`1 << 30` sentinel or one of the nonzero idle times (so it is their
minimum capped at the sentinel); and when every entry has idle time 0 the
interval is the cap 10, not the floor 1. -/
theorem C8_sleep_time (its : List IDLE_TIME)
    (h0 : ∀ e ∈ its, 0 ≤ e.idle_time) :
    ((∀ e ∈ its, e.idle_time = 0) → sleep_time_of its = 10) ∧
    sleep_time_of its = min (max 1 (Int.tdiv (min_idle_time_of its) 10)) 10 ∧
    (∀ e ∈ its, e.idle_time ≠ 0 → min_idle_time_of its ≤ e.idle_time) ∧
    (min_idle_time_of its = 1073741824 ∨
      ∃ e ∈ its, e.idle_time ≠ 0 ∧ min_idle_time_of its = e.idle_time) := by
  refine ⟨?_, ?_, ?_, ?_⟩
  · intro hz
    have hm : min_idle_time_of its = 1073741824 :=
      min_scan_foldl_all_zero its 1073741824 hz
    unfold sleep_time_of
    rw [hm]
    decide
  · have hm0 : 0 ≤ min_idle_time_of its :=
      min_scan_foldl_nonneg its 1073741824 (by norm_num) h0
    have hq0 : 0 ≤ Int.tdiv (min_idle_time_of its) 10 :=
      Int.tdiv_nonneg hm0 (by norm_num)
    unfold sleep_time_of
    dsimp only
    generalize hq : Int.tdiv (min_idle_time_of its) 10 = q
    rw [hq] at hq0
    split_ifs <;> omega
  · intro e he hnz
    exact min_scan_foldl_le_elem its 1073741824 e he hnz
  · exact min_scan_foldl_cases its 1073741824

/-- C8 witness: entries with idle times 300 and 60 give the clamped value
of one tenth of the scan result. -/
theorem C8_witness :
    sleep_time_of
        [{ name := some "sda", idle_time := 300 },
         { name := none, idle_time := 60 }]
      = min (max 1 (Int.tdiv (min_idle_time_of
          [{ name := some "sda", idle_time := 300 },
           { name := none, idle_time := 60 }]) 10)) 10 :=
  (C8_sleep_time
    [{ name := some "sda", idle_time := 300 },
     { name := none, idle_time := 60 }] (by decide)).2.1
